import Mathlib

/-!
Verification of the FreeRDP X11 RAIL module (client/X11/xf_rail.c).

The definitions below are a shallow embedding of the C source file:
machine integers become Int (signed) or Nat (unsigned), with explicit
16-bit signed wrapping where the source performs INT16 casts; the
window hash table keyed by windowId becomes an association list; and
calls into the X11 windowing backend (xf_window.c, whose definitions
are outside this module) become explicit effect values in an ordered
effect list.  One backend behaviour is modelled from the spec where
noted: xf_ShowWindow records the applied show state in the rail_state
field of the window.
-/

namespace XfRail

/-- Semantics of the C cast (INT16)v: wrap into the interval
[-32768, 32767], congruent to v modulo 65536. -/
def int16wrap (v : Int) : Int := (v + 32768) % 65536 - 32768

/-- RECTANGLE_16 from the wire protocol. -/
structure Rect where
  left : Nat
  top : Nat
  right : Nat
  bottom : Nat
deriving DecidableEq, Repr

/-- LMS_NOT_ACTIVE / LMS_STARTING..ACTIVE collapsed to the states this
module reads and writes: the source file only compares against
LMS_NOT_ACTIVE and assigns LMS_TERMINATING. -/
inductive LocalMoveState where
  | notActive
  | active
  | terminating
deriving DecidableEq, Repr

/-- The local_move tracking member of xfAppWindow. -/
structure LocalMove where
  state : LocalMoveState
  direction : Nat
deriving DecidableEq, Repr

/-- EWMH _NET_WM_MOVERESIZE direction code for keyboard resize. -/
def NET_WM_MOVERESIZE_SIZE_KEYBOARD : Nat := 9

/-- EWMH _NET_WM_MOVERESIZE direction code for keyboard move. -/
def NET_WM_MOVERESIZE_MOVE_KEYBOARD : Nat := 10

/-- Show state constant WINDOW_SHOW_MINIMIZED. -/
def WINDOW_SHOW_MINIMIZED : Nat := 2

/-- Show state constant WINDOW_SHOW_MAXIMIZED. -/
def WINDOW_SHOW_MAXIMIZED : Nat := 3

/-- xfAppWindow: the per-window state owned by the registry.  The
numWindowRects / numVisibilityRects counters of the C struct are the
lengths of the corresponding lists.  A NULL title pointer is the value
none. -/
structure AppWindow where
  windowId : Nat
  surfaceId : Nat
  x : Int
  y : Int
  width : Int
  height : Int
  windowOffsetX : Int
  windowOffsetY : Int
  windowWidth : Int
  windowHeight : Int
  resizeMarginLeft : Int
  resizeMarginRight : Int
  resizeMarginTop : Int
  resizeMarginBottom : Int
  ownerWindowId : Nat
  dwStyle : Nat
  dwExStyle : Nat
  showState : Nat
  rail_state : Nat
  title : Option String
  clientOffsetX : Int
  clientOffsetY : Int
  clientAreaWidth : Int
  clientAreaHeight : Int
  windowClientDeltaX : Int
  windowClientDeltaY : Int
  windowRects : List Rect
  visibleOffsetX : Int
  visibleOffsetY : Int
  visibilityRects : List Rect
  is_mapped : Bool
  local_move : LocalMove

/-- A zero-filled xfAppWindow, as produced by calloc in
xf_rail_add_window before the explicit field assignments. -/
def zeroAppWindow : AppWindow where
  windowId := 0
  surfaceId := 0
  x := 0
  y := 0
  width := 0
  height := 0
  windowOffsetX := 0
  windowOffsetY := 0
  windowWidth := 0
  windowHeight := 0
  resizeMarginLeft := 0
  resizeMarginRight := 0
  resizeMarginTop := 0
  resizeMarginBottom := 0
  ownerWindowId := 0
  dwStyle := 0
  dwExStyle := 0
  showState := 0
  rail_state := 0
  title := none
  clientOffsetX := 0
  clientOffsetY := 0
  clientAreaWidth := 0
  clientAreaHeight := 0
  windowClientDeltaX := 0
  windowClientDeltaY := 0
  windowRects := []
  visibleOffsetX := 0
  visibleOffsetY := 0
  visibilityRects := []
  is_mapped := false
  local_move := { state := LocalMoveState.notActive, direction := 0 }

/-- The bits of orderInfo fieldFlags tested by xf_rail_window_common,
one Boolean per distinct WINDOW_ORDER constant. -/
structure FieldFlags where
  stateNew : Bool
  fieldWndOffset : Bool
  fieldWndSize : Bool
  fieldResizeMarginX : Bool
  fieldResizeMarginY : Bool
  fieldOwner : Bool
  fieldStyle : Bool
  fieldShow : Bool
  fieldTitle : Bool
  fieldClientAreaOffset : Bool
  fieldClientAreaSize : Bool
  fieldWndClientDelta : Bool
  fieldWndRects : Bool
  fieldVisOffset : Bool
  fieldVisibility : Bool

/-- A field-mask with every bit clear. -/
def noFields : FieldFlags where
  stateNew := false
  fieldWndOffset := false
  fieldWndSize := false
  fieldResizeMarginX := false
  fieldResizeMarginY := false
  fieldOwner := false
  fieldStyle := false
  fieldShow := false
  fieldTitle := false
  fieldClientAreaOffset := false
  fieldClientAreaSize := false
  fieldWndClientDelta := false
  fieldWndRects := false
  fieldVisOffset := false
  fieldVisibility := false

/-- WINDOW_ORDER_INFO: the window id and the field mask. -/
structure OrderInfo where
  windowId : Nat
  fieldFlags : FieldFlags

/-- WINDOW_STATE_ORDER.  titleInfo is represented by its length and by
the outcome of the external UTF-16 to UTF-8 conversion
(ConvertWCharNToUtf8Alloc): none models a conversion failure. -/
structure WindowStateOrder where
  ownerWindowId : Nat
  style : Nat
  extendedStyle : Nat
  showState : Nat
  titleLength : Nat
  titleDecode : Option String
  windowOffsetX : Int
  windowOffsetY : Int
  windowClientDeltaX : Int
  windowClientDeltaY : Int
  windowWidth : Int
  windowHeight : Int
  resizeMarginLeft : Int
  resizeMarginRight : Int
  resizeMarginTop : Int
  resizeMarginBottom : Int
  clientOffsetX : Int
  clientOffsetY : Int
  clientAreaWidth : Int
  clientAreaHeight : Int
  windowRects : List Rect
  visibleOffsetX : Int
  visibleOffsetY : Int
  visibilityRects : List Rect

/-- A WINDOW_STATE_ORDER with all fields zero or empty. -/
def zeroWindowStateOrder : WindowStateOrder where
  ownerWindowId := 0
  style := 0
  extendedStyle := 0
  showState := 0
  titleLength := 0
  titleDecode := none
  windowOffsetX := 0
  windowOffsetY := 0
  windowClientDeltaX := 0
  windowClientDeltaY := 0
  windowWidth := 0
  windowHeight := 0
  resizeMarginLeft := 0
  resizeMarginRight := 0
  resizeMarginTop := 0
  resizeMarginBottom := 0
  clientOffsetX := 0
  clientOffsetY := 0
  clientAreaWidth := 0
  clientAreaHeight := 0
  windowRects := []
  visibleOffsetX := 0
  visibleOffsetY := 0
  visibilityRects := []

/-- Calls against the X11 backend (xf_window.c) that
xf_rail_window_common performs, recorded in program order. -/
inductive Effect where
  | appWindowInit
  | showWindow (state : Nat)
  | setTitle (t : String)
  | updateWindowArea (x y w h : Int)
  | moveWindow (x y w h : Int)
  | setVisibilityRects (offsetX offsetY : Int) (rects : List Rect)
  | maximizeWindow
  | setStyle (style extendedStyle : Nat)
deriving DecidableEq, Repr

/-- True for the move, redraw-area and set-visibility-rects effects. -/
def Effect.isGeomEffect : Effect → Bool
  | Effect.updateWindowArea _ _ _ _ => true
  | Effect.moveWindow _ _ _ _ => true
  | Effect.setVisibilityRects _ _ _ => true
  | _ => false

/-- Lines 352-383: title computation on the WINDOW_ORDER_STATE_NEW
branch.  With the TITLE bit absent the title is the fixed placeholder;
with the bit present a zero length payload yields the empty string and
otherwise the decoder outcome is used. -/
def createTitle (f : FieldFlags) (ws : WindowStateOrder) : Option String :=
  if f.fieldTitle then
    if ws.titleLength = 0 then some "" else ws.titleDecode
  else some "RdpRailWindow"

/-- Lines 452-475: title computation on the update path (TITLE bit
present). -/
def updateTitle (ws : WindowStateOrder) : Option String :=
  if ws.titleLength = 0 then some "" else ws.titleDecode

/-- Lines 398-407: whether the order touches any geometry field. -/
def positionOrSizeUpdated (f : FieldFlags) : Bool :=
  f.fieldWndOffset || f.fieldWndSize || f.fieldClientAreaOffset ||
  f.fieldClientAreaSize || f.fieldWndClientDelta || f.fieldVisOffset ||
  f.fieldVisibility

/-- Lines 411-450: masked field writes performed before the update-path
title block.  Each C block copies its fields only when its bit is set;
the blocks are independent, so they are rendered as one simultaneous
guarded record update. -/
def applyPreTitle (f : FieldFlags) (ws : WindowStateOrder) (w : AppWindow) : AppWindow :=
  { w with
    windowOffsetX := if f.fieldWndOffset then ws.windowOffsetX else w.windowOffsetX
    windowOffsetY := if f.fieldWndOffset then ws.windowOffsetY else w.windowOffsetY
    windowWidth := if f.fieldWndSize then ws.windowWidth else w.windowWidth
    windowHeight := if f.fieldWndSize then ws.windowHeight else w.windowHeight
    resizeMarginLeft := if f.fieldResizeMarginX then ws.resizeMarginLeft else w.resizeMarginLeft
    resizeMarginRight := if f.fieldResizeMarginX then ws.resizeMarginRight else w.resizeMarginRight
    resizeMarginTop := if f.fieldResizeMarginY then ws.resizeMarginTop else w.resizeMarginTop
    resizeMarginBottom := if f.fieldResizeMarginY then ws.resizeMarginBottom else w.resizeMarginBottom
    ownerWindowId := if f.fieldOwner then ws.ownerWindowId else w.ownerWindowId
    dwStyle := if f.fieldStyle then ws.style else w.dwStyle
    dwExStyle := if f.fieldStyle then ws.extendedStyle else w.dwExStyle
    showState := if f.fieldShow then ws.showState else w.showState }

/-- Lines 481-549: masked field writes performed after the update-path
title block (the writes skipped when the title decode fails). -/
def applyPostTitle (f : FieldFlags) (ws : WindowStateOrder) (w : AppWindow) : AppWindow :=
  { w with
    clientOffsetX := if f.fieldClientAreaOffset then ws.clientOffsetX else w.clientOffsetX
    clientOffsetY := if f.fieldClientAreaOffset then ws.clientOffsetY else w.clientOffsetY
    clientAreaWidth := if f.fieldClientAreaSize then ws.clientAreaWidth else w.clientAreaWidth
    clientAreaHeight := if f.fieldClientAreaSize then ws.clientAreaHeight else w.clientAreaHeight
    windowClientDeltaX := if f.fieldWndClientDelta then ws.windowClientDeltaX else w.windowClientDeltaX
    windowClientDeltaY := if f.fieldWndClientDelta then ws.windowClientDeltaY else w.windowClientDeltaY
    windowRects := if f.fieldWndRects then ws.windowRects else w.windowRects
    visibleOffsetX := if f.fieldVisOffset then ws.visibleOffsetX else w.visibleOffsetX
    visibleOffsetY := if f.fieldVisOffset then ws.visibleOffsetY else w.visibleOffsetY
    visibilityRects := if f.fieldVisibility then ws.visibilityRects else w.visibilityRects }

/-- Line 570-572: x offset applied to the visibility rects. -/
def visRectsOffsetX (w : AppWindow) : Int :=
  w.visibleOffsetX - (w.clientOffsetX - w.windowClientDeltaX)

/-- Line 573-575: y offset applied to the visibility rects. -/
def visRectsOffsetY (w : AppWindow) : Int :=
  w.visibleOffsetY - (w.clientOffsetY - w.windowClientDeltaY)

/-- Lines 568-614: geometry effects of a position or size update,
evaluated on the window state after all masked writes. -/
def geomEffects (w : AppWindow) : List Effect :=
  (if w.rail_state ≠ WINDOW_SHOW_MINIMIZED then
    (if w.x = w.windowOffsetX ∧ w.y = w.windowOffsetY ∧
        w.width = w.windowWidth ∧ w.height = w.windowHeight then
      [Effect.updateWindowArea 0 0 w.windowWidth w.windowHeight]
    else
      [Effect.moveWindow w.windowOffsetX w.windowOffsetY w.windowWidth w.windowHeight]) ++
    [Effect.setVisibilityRects (visRectsOffsetX w) (visRectsOffsetY w) w.visibilityRects]
  else []) ++
  (if w.rail_state = WINDOW_SHOW_MAXIMIZED then [Effect.maximizeWindow] else [])

/-- Lines 551-624: the Update Window effect section, evaluated on the
final window state. -/
def emitEffects (f : FieldFlags) (w : AppWindow) : List Effect :=
  (if f.fieldShow then [Effect.showWindow w.showState] else []) ++
  (if f.fieldTitle ∧ w.title.isSome then [Effect.setTitle (w.title.getD "")] else []) ++
  (if positionOrSizeUpdated f then geomEffects w else []) ++
  (if f.stateNew ∨ f.fieldStyle then [Effect.setStyle w.dwStyle w.dwExStyle] else [])

/-- Lines 337-392: the writes of the WINDOW_ORDER_STATE_NEW branch on
the window (style, extended style, and the computed title - the NULL
check on the title is in the caller windowCommonCore). -/
def newBranchWindow (f : FieldFlags) (ws : WindowStateOrder) (w0 : AppWindow) : AppWindow :=
  if f.stateNew then
    { w0 with dwStyle := ws.style, dwExStyle := ws.extendedStyle,
              title := createTitle f ws }
  else w0

/-- The window state after all masked writes of a fully applied order:
the new-branch writes, the pre-title writes, the update-path title
replacement, the post-title writes, and finally the rail_state update
performed by xf_ShowWindow when the SHOW bit is set (that assignment
lives in xf_window.c and is modelled from the spec: the backend
records the applied show state). -/
def commonFinalWindow (f : FieldFlags) (ws : WindowStateOrder) (w0 : AppWindow) : AppWindow :=
  let w1 := applyPreTitle f ws (newBranchWindow f ws w0)
  let w2 := if f.fieldTitle then { w1 with title := updateTitle ws } else w1
  let w3 := applyPostTitle f ws w2
  if f.fieldShow then { w3 with rail_state := w3.showState } else w3

/-- Line 391: the xf_AppWindowInit call performed on the new-window
branch before the masked update section. -/
def initEffects (f : FieldFlags) : List Effect :=
  if f.stateNew then [Effect.appWindowInit] else []

/-- The body of xf_rail_window_common acting on a present window (the
window was either found in the registry or just created by
xf_rail_add_window).  Returns the success flag, the window state as
left behind in the registry entry, and the backend effects in program
order.  The two early FALSE returns are the create-path title failure
(line 385) and the update-path title failure (lines 467 and 474); on
those paths the registry entry keeps exactly the writes performed so
far. -/
def windowCommonCore (f : FieldFlags) (ws : WindowStateOrder) (w0 : AppWindow) :
    Bool × AppWindow × List Effect :=
  if f.stateNew ∧ (createTitle f ws).isNone then
    (false, newBranchWindow f ws w0, [])
  else
    if f.fieldTitle ∧ (updateTitle ws).isNone then
      (false, applyPreTitle f ws (newBranchWindow f ws w0), initEffects f)
    else
      (true, commonFinalWindow f ws w0,
       initEffects f ++ emitEffects f (commonFinalWindow f ws w0))

/-- The railWindows hash table as an association list from windowId to
window state. -/
def RailWindowRegistry := List (Nat × AppWindow)

/-- HashTable_GetItemValue keyed by windowId. -/
def regGet (reg : RailWindowRegistry) (id : Nat) : Option AppWindow :=
  (List.find? (fun p => p.1 == id) reg).map (fun p => p.2)

/-- HashTable_Insert keyed by windowId (replacing any previous binding). -/
def regInsert (reg : RailWindowRegistry) (id : Nat) (w : AppWindow) : RailWindowRegistry :=
  (id, w) :: List.filter (fun p => p.1 != id) reg

/-- xf_rail_add_window: calloc a zero window, set the identity and the
local geometry, insert it into the registry. -/
def xf_rail_add_window (reg : RailWindowRegistry) (id : Nat) (x y width height : Int)
    (surfaceId : Nat) : AppWindow × RailWindowRegistry :=
  let w := { zeroAppWindow with
    windowId := id, surfaceId := surfaceId, x := x, y := y,
    width := width, height := height }
  (w, regInsert reg id w)

/-- xf_rail_window_common: locate or create the window, then run the
core.  The C code mutates the registry entry through the stored
pointer, so the entry reflects the threaded window state on every
return path, including the failing ones. -/
def xf_rail_window_common (reg : RailWindowRegistry) (oi : OrderInfo)
    (ws : WindowStateOrder) : Bool × RailWindowRegistry × List Effect :=
  match regGet reg oi.windowId with
  | some w =>
      let r := windowCommonCore oi.fieldFlags ws w
      (r.1, regInsert reg oi.windowId r.2.1, r.2.2)
  | none =>
      if oi.fieldFlags.stateNew then
        let a := xf_rail_add_window reg oi.windowId ws.windowOffsetX ws.windowOffsetY
          ws.windowWidth ws.windowHeight 0xFFFFFFFF
        let r := windowCommonCore oi.fieldFlags ws a.1
        (r.1, regInsert a.2 oi.windowId r.2.1, r.2.2)
      else (false, reg, [])

/-- The result of an icon cache lookup: either the single scratch slot
or the grid entry at the given flat index. -/
inductive IconSlot where
  | scratch
  | grid (idx : Nat)
deriving DecidableEq, Repr

/-- The shape of xfRailIconCache: the two capacities negotiated at
session setup. -/
structure RailIconCacheShape where
  numCaches : Nat
  numCacheEntries : Nat
deriving DecidableEq, Repr

/-- Lines 673-695: RailIconCache_Lookup.  The byte-wide sentinel 0xFF
selects the scratch slot before any bounds check; otherwise out of
range coordinates are a miss (none) and in range coordinates address
the flat grid at numCacheEntries * cacheId + cacheEntry. -/
def RailIconCache_Lookup (cache : RailIconCacheShape) (cacheId : Nat)
    (cacheEntry : Nat) : Option IconSlot :=
  if cacheId = 0xFF then some IconSlot.scratch
  else if cache.numCaches ≤ cacheId then none
  else if cache.numCacheEntries ≤ cacheEntry then none
  else some (IconSlot.grid (cache.numCacheEntries * cacheId + cacheEntry))

/-- The seven RAIL exec result codes (order of error_code_names). -/
inductive RailExecResult where
  | ok
  | hookNotLoaded
  | decodeFailed
  | notInAllowlist
  | fileNotFound
  | failed
  | sessionLocked
deriving DecidableEq, Repr

/-- The two observable outcomes of xf_rail_server_execute_result. -/
inductive ExecResultAction where
  | abortConnection
  | enableRemoteAppMode
deriving DecidableEq, Repr

/-- Lines 924-945: any result other than RAIL_EXEC_S_OK aborts the
connection; RAIL_EXEC_S_OK enables remote app mode. -/
def xf_rail_server_execute_result (r : RailExecResult) : ExecResultAction :=
  match r with
  | RailExecResult.ok => ExecResultAction.enableRemoteAppMode
  | _ => ExecResultAction.abortConnection

/-- The four INT16 fields of a RAIL_WINDOW_MOVE_ORDER. -/
structure WindowMoveOrder where
  windowId : Nat
  left : Int
  top : Int
  right : Int
  bottom : Int
deriving DecidableEq, Repr

/-- Lines 158-166: the geometry sync fields computed by
xf_rail_adjust_position, with every INT16 cast made explicit. -/
def adjustPositionMoveOrder (w : AppWindow) : WindowMoveOrder :=
  let left := int16wrap w.resizeMarginLeft
  let right := int16wrap w.resizeMarginRight
  let top := int16wrap w.resizeMarginTop
  let bottom := int16wrap w.resizeMarginBottom
  { windowId := w.windowId
    left := int16wrap (w.x - left)
    top := int16wrap (w.y - top)
    right := int16wrap (w.x + w.width + right)
    bottom := int16wrap (w.y + w.height + bottom) }

/-- Lines 199-209: the geometry sync fields computed by
xf_rail_end_local_move for the keyboard directions, with every INT16
cast made explicit (the width and height are cast before being added
to the origin). -/
def endLocalMoveOrder (w : AppWindow) : WindowMoveOrder :=
  let left := int16wrap w.resizeMarginLeft
  let right := int16wrap w.resizeMarginRight
  let top := int16wrap w.resizeMarginTop
  let bottom := int16wrap w.resizeMarginBottom
  let wdt := int16wrap (w.width + right)
  let hgt := int16wrap (w.height + bottom)
  { windowId := w.windowId
    left := int16wrap (w.x - left)
    top := int16wrap (w.y - top)
    right := int16wrap (w.x + wdt)
    bottom := int16wrap (w.y + hgt) }

/-- Lines 138-169: xf_rail_adjust_position.  Returns the
ClientWindowMove order sent to the peer, or none when nothing is sent:
the function returns early when the window is not mapped or a local
move is in progress, and sends only when the local geometry disagrees
with the RDP geometry. -/
def xf_rail_adjust_position (w : AppWindow) : Option WindowMoveOrder :=
  if w.is_mapped = false ∨ w.local_move.state ≠ LocalMoveState.notActive then none
  else if w.x ≠ w.windowOffsetX ∨ w.y ≠ w.windowOffsetY ∨
          w.width ≠ w.windowWidth ∨ w.height ≠ w.windowHeight then
    some (adjustPositionMoveOrder w)
  else none

/-- Messages xf_rail_end_local_move produces: the explicit geometry
sync order for keyboard directions, and the synthetic button release
for pointer driven directions. -/
inductive MoveEndEvent where
  | clientWindowMove (order : WindowMoveOrder)
  | buttonRelease (x y : Int)
deriving DecidableEq, Repr

/-- Lines 171-236: xf_rail_end_local_move.  The pointer position
reported by XQueryPointer is an input.  The function sends the
keyboard geometry sync order or the synthetic button release, then
proactively copies the local geometry into the RDP-side fields and
leaves the session in LMS_TERMINATING. -/
def xf_rail_end_local_move (w : AppWindow) (pointerX pointerY : Int) :
    AppWindow × List MoveEndEvent :=
  let isKeyboard := w.local_move.direction = NET_WM_MOVERESIZE_MOVE_KEYBOARD ∨
                    w.local_move.direction = NET_WM_MOVERESIZE_SIZE_KEYBOARD
  let sends :=
    (if isKeyboard then [MoveEndEvent.clientWindowMove (endLocalMoveOrder w)] else []) ++
    (if ¬isKeyboard then [MoveEndEvent.buttonRelease pointerX pointerY] else [])
  ({ w with
      windowOffsetX := w.x
      windowOffsetY := w.y
      windowWidth := w.width
      windowHeight := w.height
      local_move := { w.local_move with state := LocalMoveState.terminating } },
   sends)

/-- A window in an Active keyboard-move session, used to test C4. -/
def activeKeyMoveWindow : AppWindow :=
  { zeroAppWindow with
    local_move := { state := LocalMoveState.active,
                    direction := NET_WM_MOVERESIZE_MOVE_KEYBOARD } }

/-- An unmapped idle window whose local position disagrees with the
RDP position, used to test C8. -/
def unmappedMovedWindow : AppWindow :=
  { zeroAppWindow with x := 10 }

/-- A mapped idle window at x = 5 with RDP position 0, used as the C8
witness. -/
def mappedMovedWindow : AppWindow :=
  { zeroAppWindow with is_mapped := true, x := 5 }

/-- A window that already exists with style 1 and a real title, used
to refute C2 for orders carrying the new-window flag. -/
def existingStyledWindow : AppWindow :=
  { zeroAppWindow with windowId := 7, dwStyle := 1, title := some "abc" }

/-- An order payload whose style field is 2. -/
def styleTwoOrder : WindowStateOrder :=
  { zeroWindowStateOrder with style := 2 }

/-- A field mask with only the new-window flag set. -/
def newNoTitleFlags : FieldFlags :=
  { noFields with stateNew := true }

/-- A field mask with the new-window and TITLE flags set. -/
def newTitleFlags : FieldFlags :=
  { noFields with stateNew := true, fieldTitle := true }

/-- An order payload with a four byte title that fails to decode. -/
def failDecodeOrder : WindowStateOrder :=
  { zeroWindowStateOrder with titleLength := 4, titleDecode := none }

/-- A window whose RAIL show state is minimized (rail_state mirrors
showState, as maintained by the show effect). -/
def minimizedWindow : AppWindow :=
  { zeroAppWindow with showState := WINDOW_SHOW_MINIMIZED,
                       rail_state := WINDOW_SHOW_MINIMIZED }

/-- A field mask with only the WND_OFFSET flag set. -/
def geomOrderFlags : FieldFlags :=
  { noFields with fieldWndOffset := true }

/-- An order payload moving the window to offset 7. -/
def offsetOrder : WindowStateOrder :=
  { zeroWindowStateOrder with windowOffsetX := 7 }

/-- A non-minimized window whose local x is 7, matching offsetOrder. -/
def matchingWindow : AppWindow :=
  { zeroAppWindow with x := 7 }

lemma regGet_regInsert_self (reg : RailWindowRegistry) (id : Nat) (w : AppWindow) :
    regGet (regInsert reg id w) id = some w := by
  simp [regGet, regInsert]

lemma endLocalMoveOrder_eq_adjustPositionMoveOrder (w : AppWindow) :
    endLocalMoveOrder w = adjustPositionMoveOrder w := by
  simp only [endLocalMoveOrder, adjustPositionMoveOrder, int16wrap,
    WindowMoveOrder.mk.injEq, and_true, true_and, eq_self_iff_true]
  omega

@[simp] lemma mem_initEffects (f : FieldFlags) (e : Effect) :
    e ∈ initEffects f ↔ f.stateNew ∧ e = Effect.appWindowInit := by
  unfold initEffects
  split_ifs with h <;> simp [h]

lemma mem_geomEffects (w : AppWindow) (e : Effect)
    (hNotMin : w.rail_state ≠ WINDOW_SHOW_MINIMIZED) :
    e ∈ geomEffects w ↔
      (((w.x = w.windowOffsetX ∧ w.y = w.windowOffsetY ∧
         w.width = w.windowWidth ∧ w.height = w.windowHeight) ∧
        e = Effect.updateWindowArea 0 0 w.windowWidth w.windowHeight) ∨
       (¬(w.x = w.windowOffsetX ∧ w.y = w.windowOffsetY ∧
          w.width = w.windowWidth ∧ w.height = w.windowHeight) ∧
        e = Effect.moveWindow w.windowOffsetX w.windowOffsetY
              w.windowWidth w.windowHeight) ∨
       e = Effect.setVisibilityRects (visRectsOffsetX w) (visRectsOffsetY w)
             w.visibilityRects ∨
       (w.rail_state = WINDOW_SHOW_MAXIMIZED ∧ e = Effect.maximizeWindow)) := by
  unfold geomEffects
  rw [if_pos hNotMin]
  split_ifs with hc hm hm2 <;> simp_all [or_assoc]

lemma mem_emitEffects (f : FieldFlags) (w : AppWindow) (e : Effect) :
    e ∈ emitEffects f w ↔
      ((f.fieldShow ∧ e = Effect.showWindow w.showState) ∨
       ((f.fieldTitle ∧ w.title.isSome) ∧ e = Effect.setTitle (w.title.getD "")) ∨
       (positionOrSizeUpdated f ∧ e ∈ geomEffects w) ∨
       ((f.stateNew ∨ f.fieldStyle) ∧ e = Effect.setStyle w.dwStyle w.dwExStyle)) := by
  unfold emitEffects
  split_ifs <;> simp [*]

/-! Projection lemmas: one equation per xfAppWindow field for each
stage of the masked write pipeline, proved directly from the
definitions. -/

@[simp] lemma newBranchWindow_windowId (f : FieldFlags) (ws : WindowStateOrder) (w : AppWindow) :
    (newBranchWindow f ws w).windowId = w.windowId := by
  unfold newBranchWindow
  split_ifs <;> rfl

@[simp] lemma newBranchWindow_surfaceId (f : FieldFlags) (ws : WindowStateOrder) (w : AppWindow) :
    (newBranchWindow f ws w).surfaceId = w.surfaceId := by
  unfold newBranchWindow
  split_ifs <;> rfl

@[simp] lemma newBranchWindow_x (f : FieldFlags) (ws : WindowStateOrder) (w : AppWindow) :
    (newBranchWindow f ws w).x = w.x := by
  unfold newBranchWindow
  split_ifs <;> rfl

@[simp] lemma newBranchWindow_y (f : FieldFlags) (ws : WindowStateOrder) (w : AppWindow) :
    (newBranchWindow f ws w).y = w.y := by
  unfold newBranchWindow
  split_ifs <;> rfl

@[simp] lemma newBranchWindow_width (f : FieldFlags) (ws : WindowStateOrder) (w : AppWindow) :
    (newBranchWindow f ws w).width = w.width := by
  unfold newBranchWindow
  split_ifs <;> rfl

@[simp] lemma newBranchWindow_height (f : FieldFlags) (ws : WindowStateOrder) (w : AppWindow) :
    (newBranchWindow f ws w).height = w.height := by
  unfold newBranchWindow
  split_ifs <;> rfl

@[simp] lemma newBranchWindow_windowOffsetX (f : FieldFlags) (ws : WindowStateOrder) (w : AppWindow) :
    (newBranchWindow f ws w).windowOffsetX = w.windowOffsetX := by
  unfold newBranchWindow
  split_ifs <;> rfl

@[simp] lemma newBranchWindow_windowOffsetY (f : FieldFlags) (ws : WindowStateOrder) (w : AppWindow) :
    (newBranchWindow f ws w).windowOffsetY = w.windowOffsetY := by
  unfold newBranchWindow
  split_ifs <;> rfl

@[simp] lemma newBranchWindow_windowWidth (f : FieldFlags) (ws : WindowStateOrder) (w : AppWindow) :
    (newBranchWindow f ws w).windowWidth = w.windowWidth := by
  unfold newBranchWindow
  split_ifs <;> rfl

@[simp] lemma newBranchWindow_windowHeight (f : FieldFlags) (ws : WindowStateOrder) (w : AppWindow) :
    (newBranchWindow f ws w).windowHeight = w.windowHeight := by
  unfold newBranchWindow
  split_ifs <;> rfl

@[simp] lemma newBranchWindow_resizeMarginLeft (f : FieldFlags) (ws : WindowStateOrder) (w : AppWindow) :
    (newBranchWindow f ws w).resizeMarginLeft = w.resizeMarginLeft := by
  unfold newBranchWindow
  split_ifs <;> rfl

@[simp] lemma newBranchWindow_resizeMarginRight (f : FieldFlags) (ws : WindowStateOrder) (w : AppWindow) :
    (newBranchWindow f ws w).resizeMarginRight = w.resizeMarginRight := by
  unfold newBranchWindow
  split_ifs <;> rfl

@[simp] lemma newBranchWindow_resizeMarginTop (f : FieldFlags) (ws : WindowStateOrder) (w : AppWindow) :
    (newBranchWindow f ws w).resizeMarginTop = w.resizeMarginTop := by
  unfold newBranchWindow
  split_ifs <;> rfl

@[simp] lemma newBranchWindow_resizeMarginBottom (f : FieldFlags) (ws : WindowStateOrder) (w : AppWindow) :
    (newBranchWindow f ws w).resizeMarginBottom = w.resizeMarginBottom := by
  unfold newBranchWindow
  split_ifs <;> rfl

@[simp] lemma newBranchWindow_ownerWindowId (f : FieldFlags) (ws : WindowStateOrder) (w : AppWindow) :
    (newBranchWindow f ws w).ownerWindowId = w.ownerWindowId := by
  unfold newBranchWindow
  split_ifs <;> rfl

@[simp] lemma newBranchWindow_dwStyle (f : FieldFlags) (ws : WindowStateOrder) (w : AppWindow) :
    (newBranchWindow f ws w).dwStyle = if f.stateNew then ws.style else w.dwStyle := by
  unfold newBranchWindow
  split_ifs <;> rfl

@[simp] lemma newBranchWindow_dwExStyle (f : FieldFlags) (ws : WindowStateOrder) (w : AppWindow) :
    (newBranchWindow f ws w).dwExStyle = if f.stateNew then ws.extendedStyle else w.dwExStyle := by
  unfold newBranchWindow
  split_ifs <;> rfl

@[simp] lemma newBranchWindow_showState (f : FieldFlags) (ws : WindowStateOrder) (w : AppWindow) :
    (newBranchWindow f ws w).showState = w.showState := by
  unfold newBranchWindow
  split_ifs <;> rfl

@[simp] lemma newBranchWindow_rail_state (f : FieldFlags) (ws : WindowStateOrder) (w : AppWindow) :
    (newBranchWindow f ws w).rail_state = w.rail_state := by
  unfold newBranchWindow
  split_ifs <;> rfl

@[simp] lemma newBranchWindow_title (f : FieldFlags) (ws : WindowStateOrder) (w : AppWindow) :
    (newBranchWindow f ws w).title = if f.stateNew then createTitle f ws else w.title := by
  unfold newBranchWindow
  split_ifs <;> rfl

@[simp] lemma newBranchWindow_clientOffsetX (f : FieldFlags) (ws : WindowStateOrder) (w : AppWindow) :
    (newBranchWindow f ws w).clientOffsetX = w.clientOffsetX := by
  unfold newBranchWindow
  split_ifs <;> rfl

@[simp] lemma newBranchWindow_clientOffsetY (f : FieldFlags) (ws : WindowStateOrder) (w : AppWindow) :
    (newBranchWindow f ws w).clientOffsetY = w.clientOffsetY := by
  unfold newBranchWindow
  split_ifs <;> rfl

@[simp] lemma newBranchWindow_clientAreaWidth (f : FieldFlags) (ws : WindowStateOrder) (w : AppWindow) :
    (newBranchWindow f ws w).clientAreaWidth = w.clientAreaWidth := by
  unfold newBranchWindow
  split_ifs <;> rfl

@[simp] lemma newBranchWindow_clientAreaHeight (f : FieldFlags) (ws : WindowStateOrder) (w : AppWindow) :
    (newBranchWindow f ws w).clientAreaHeight = w.clientAreaHeight := by
  unfold newBranchWindow
  split_ifs <;> rfl

@[simp] lemma newBranchWindow_windowClientDeltaX (f : FieldFlags) (ws : WindowStateOrder) (w : AppWindow) :
    (newBranchWindow f ws w).windowClientDeltaX = w.windowClientDeltaX := by
  unfold newBranchWindow
  split_ifs <;> rfl

@[simp] lemma newBranchWindow_windowClientDeltaY (f : FieldFlags) (ws : WindowStateOrder) (w : AppWindow) :
    (newBranchWindow f ws w).windowClientDeltaY = w.windowClientDeltaY := by
  unfold newBranchWindow
  split_ifs <;> rfl

@[simp] lemma newBranchWindow_windowRects (f : FieldFlags) (ws : WindowStateOrder) (w : AppWindow) :
    (newBranchWindow f ws w).windowRects = w.windowRects := by
  unfold newBranchWindow
  split_ifs <;> rfl

@[simp] lemma newBranchWindow_visibleOffsetX (f : FieldFlags) (ws : WindowStateOrder) (w : AppWindow) :
    (newBranchWindow f ws w).visibleOffsetX = w.visibleOffsetX := by
  unfold newBranchWindow
  split_ifs <;> rfl

@[simp] lemma newBranchWindow_visibleOffsetY (f : FieldFlags) (ws : WindowStateOrder) (w : AppWindow) :
    (newBranchWindow f ws w).visibleOffsetY = w.visibleOffsetY := by
  unfold newBranchWindow
  split_ifs <;> rfl

@[simp] lemma newBranchWindow_visibilityRects (f : FieldFlags) (ws : WindowStateOrder) (w : AppWindow) :
    (newBranchWindow f ws w).visibilityRects = w.visibilityRects := by
  unfold newBranchWindow
  split_ifs <;> rfl

@[simp] lemma newBranchWindow_is_mapped (f : FieldFlags) (ws : WindowStateOrder) (w : AppWindow) :
    (newBranchWindow f ws w).is_mapped = w.is_mapped := by
  unfold newBranchWindow
  split_ifs <;> rfl

@[simp] lemma newBranchWindow_local_move (f : FieldFlags) (ws : WindowStateOrder) (w : AppWindow) :
    (newBranchWindow f ws w).local_move = w.local_move := by
  unfold newBranchWindow
  split_ifs <;> rfl

@[simp] lemma commonFinalWindow_windowId (f : FieldFlags) (ws : WindowStateOrder) (w : AppWindow) :
    (commonFinalWindow f ws w).windowId = w.windowId := by
  simp only [commonFinalWindow]
  split_ifs <;> simp [applyPreTitle, applyPostTitle, *]

@[simp] lemma commonFinalWindow_surfaceId (f : FieldFlags) (ws : WindowStateOrder) (w : AppWindow) :
    (commonFinalWindow f ws w).surfaceId = w.surfaceId := by
  simp only [commonFinalWindow]
  split_ifs <;> simp [applyPreTitle, applyPostTitle, *]

@[simp] lemma commonFinalWindow_x (f : FieldFlags) (ws : WindowStateOrder) (w : AppWindow) :
    (commonFinalWindow f ws w).x = w.x := by
  simp only [commonFinalWindow]
  split_ifs <;> simp [applyPreTitle, applyPostTitle, *]

@[simp] lemma commonFinalWindow_y (f : FieldFlags) (ws : WindowStateOrder) (w : AppWindow) :
    (commonFinalWindow f ws w).y = w.y := by
  simp only [commonFinalWindow]
  split_ifs <;> simp [applyPreTitle, applyPostTitle, *]

@[simp] lemma commonFinalWindow_width (f : FieldFlags) (ws : WindowStateOrder) (w : AppWindow) :
    (commonFinalWindow f ws w).width = w.width := by
  simp only [commonFinalWindow]
  split_ifs <;> simp [applyPreTitle, applyPostTitle, *]

@[simp] lemma commonFinalWindow_height (f : FieldFlags) (ws : WindowStateOrder) (w : AppWindow) :
    (commonFinalWindow f ws w).height = w.height := by
  simp only [commonFinalWindow]
  split_ifs <;> simp [applyPreTitle, applyPostTitle, *]

@[simp] lemma commonFinalWindow_windowOffsetX (f : FieldFlags) (ws : WindowStateOrder) (w : AppWindow) :
    (commonFinalWindow f ws w).windowOffsetX = if f.fieldWndOffset then ws.windowOffsetX else w.windowOffsetX := by
  simp only [commonFinalWindow]
  split_ifs <;> simp [applyPreTitle, applyPostTitle, *]

@[simp] lemma commonFinalWindow_windowOffsetY (f : FieldFlags) (ws : WindowStateOrder) (w : AppWindow) :
    (commonFinalWindow f ws w).windowOffsetY = if f.fieldWndOffset then ws.windowOffsetY else w.windowOffsetY := by
  simp only [commonFinalWindow]
  split_ifs <;> simp [applyPreTitle, applyPostTitle, *]

@[simp] lemma commonFinalWindow_windowWidth (f : FieldFlags) (ws : WindowStateOrder) (w : AppWindow) :
    (commonFinalWindow f ws w).windowWidth = if f.fieldWndSize then ws.windowWidth else w.windowWidth := by
  simp only [commonFinalWindow]
  split_ifs <;> simp [applyPreTitle, applyPostTitle, *]

@[simp] lemma commonFinalWindow_windowHeight (f : FieldFlags) (ws : WindowStateOrder) (w : AppWindow) :
    (commonFinalWindow f ws w).windowHeight = if f.fieldWndSize then ws.windowHeight else w.windowHeight := by
  simp only [commonFinalWindow]
  split_ifs <;> simp [applyPreTitle, applyPostTitle, *]

@[simp] lemma commonFinalWindow_resizeMarginLeft (f : FieldFlags) (ws : WindowStateOrder) (w : AppWindow) :
    (commonFinalWindow f ws w).resizeMarginLeft = if f.fieldResizeMarginX then ws.resizeMarginLeft else w.resizeMarginLeft := by
  simp only [commonFinalWindow]
  split_ifs <;> simp [applyPreTitle, applyPostTitle, *]

@[simp] lemma commonFinalWindow_resizeMarginRight (f : FieldFlags) (ws : WindowStateOrder) (w : AppWindow) :
    (commonFinalWindow f ws w).resizeMarginRight = if f.fieldResizeMarginX then ws.resizeMarginRight else w.resizeMarginRight := by
  simp only [commonFinalWindow]
  split_ifs <;> simp [applyPreTitle, applyPostTitle, *]

@[simp] lemma commonFinalWindow_resizeMarginTop (f : FieldFlags) (ws : WindowStateOrder) (w : AppWindow) :
    (commonFinalWindow f ws w).resizeMarginTop = if f.fieldResizeMarginY then ws.resizeMarginTop else w.resizeMarginTop := by
  simp only [commonFinalWindow]
  split_ifs <;> simp [applyPreTitle, applyPostTitle, *]

@[simp] lemma commonFinalWindow_resizeMarginBottom (f : FieldFlags) (ws : WindowStateOrder) (w : AppWindow) :
    (commonFinalWindow f ws w).resizeMarginBottom = if f.fieldResizeMarginY then ws.resizeMarginBottom else w.resizeMarginBottom := by
  simp only [commonFinalWindow]
  split_ifs <;> simp [applyPreTitle, applyPostTitle, *]

@[simp] lemma commonFinalWindow_ownerWindowId (f : FieldFlags) (ws : WindowStateOrder) (w : AppWindow) :
    (commonFinalWindow f ws w).ownerWindowId = if f.fieldOwner then ws.ownerWindowId else w.ownerWindowId := by
  simp only [commonFinalWindow]
  split_ifs <;> simp [applyPreTitle, applyPostTitle, *]

@[simp] lemma commonFinalWindow_dwStyle (f : FieldFlags) (ws : WindowStateOrder) (w : AppWindow) :
    (commonFinalWindow f ws w).dwStyle = if f.fieldStyle then ws.style else if f.stateNew then ws.style else w.dwStyle := by
  simp only [commonFinalWindow]
  split_ifs <;> simp [applyPreTitle, applyPostTitle, *]

@[simp] lemma commonFinalWindow_dwExStyle (f : FieldFlags) (ws : WindowStateOrder) (w : AppWindow) :
    (commonFinalWindow f ws w).dwExStyle = if f.fieldStyle then ws.extendedStyle else if f.stateNew then ws.extendedStyle else w.dwExStyle := by
  simp only [commonFinalWindow]
  split_ifs <;> simp [applyPreTitle, applyPostTitle, *]

@[simp] lemma commonFinalWindow_showState (f : FieldFlags) (ws : WindowStateOrder) (w : AppWindow) :
    (commonFinalWindow f ws w).showState = if f.fieldShow then ws.showState else w.showState := by
  simp only [commonFinalWindow]
  split_ifs <;> simp [applyPreTitle, applyPostTitle, *]

@[simp] lemma commonFinalWindow_rail_state (f : FieldFlags) (ws : WindowStateOrder) (w : AppWindow) :
    (commonFinalWindow f ws w).rail_state = if f.fieldShow then ws.showState else w.rail_state := by
  simp only [commonFinalWindow]
  split_ifs <;> simp [applyPreTitle, applyPostTitle, *]

@[simp] lemma commonFinalWindow_title (f : FieldFlags) (ws : WindowStateOrder) (w : AppWindow) :
    (commonFinalWindow f ws w).title = if f.fieldTitle then updateTitle ws else if f.stateNew then createTitle f ws else w.title := by
  simp only [commonFinalWindow]
  split_ifs <;> simp [applyPreTitle, applyPostTitle, *]

@[simp] lemma commonFinalWindow_clientOffsetX (f : FieldFlags) (ws : WindowStateOrder) (w : AppWindow) :
    (commonFinalWindow f ws w).clientOffsetX = if f.fieldClientAreaOffset then ws.clientOffsetX else w.clientOffsetX := by
  simp only [commonFinalWindow]
  split_ifs <;> simp [applyPreTitle, applyPostTitle, *]

@[simp] lemma commonFinalWindow_clientOffsetY (f : FieldFlags) (ws : WindowStateOrder) (w : AppWindow) :
    (commonFinalWindow f ws w).clientOffsetY = if f.fieldClientAreaOffset then ws.clientOffsetY else w.clientOffsetY := by
  simp only [commonFinalWindow]
  split_ifs <;> simp [applyPreTitle, applyPostTitle, *]

@[simp] lemma commonFinalWindow_clientAreaWidth (f : FieldFlags) (ws : WindowStateOrder) (w : AppWindow) :
    (commonFinalWindow f ws w).clientAreaWidth = if f.fieldClientAreaSize then ws.clientAreaWidth else w.clientAreaWidth := by
  simp only [commonFinalWindow]
  split_ifs <;> simp [applyPreTitle, applyPostTitle, *]

@[simp] lemma commonFinalWindow_clientAreaHeight (f : FieldFlags) (ws : WindowStateOrder) (w : AppWindow) :
    (commonFinalWindow f ws w).clientAreaHeight = if f.fieldClientAreaSize then ws.clientAreaHeight else w.clientAreaHeight := by
  simp only [commonFinalWindow]
  split_ifs <;> simp [applyPreTitle, applyPostTitle, *]

@[simp] lemma commonFinalWindow_windowClientDeltaX (f : FieldFlags) (ws : WindowStateOrder) (w : AppWindow) :
    (commonFinalWindow f ws w).windowClientDeltaX = if f.fieldWndClientDelta then ws.windowClientDeltaX else w.windowClientDeltaX := by
  simp only [commonFinalWindow]
  split_ifs <;> simp [applyPreTitle, applyPostTitle, *]

@[simp] lemma commonFinalWindow_windowClientDeltaY (f : FieldFlags) (ws : WindowStateOrder) (w : AppWindow) :
    (commonFinalWindow f ws w).windowClientDeltaY = if f.fieldWndClientDelta then ws.windowClientDeltaY else w.windowClientDeltaY := by
  simp only [commonFinalWindow]
  split_ifs <;> simp [applyPreTitle, applyPostTitle, *]

@[simp] lemma commonFinalWindow_windowRects (f : FieldFlags) (ws : WindowStateOrder) (w : AppWindow) :
    (commonFinalWindow f ws w).windowRects = if f.fieldWndRects then ws.windowRects else w.windowRects := by
  simp only [commonFinalWindow]
  split_ifs <;> simp [applyPreTitle, applyPostTitle, *]

@[simp] lemma commonFinalWindow_visibleOffsetX (f : FieldFlags) (ws : WindowStateOrder) (w : AppWindow) :
    (commonFinalWindow f ws w).visibleOffsetX = if f.fieldVisOffset then ws.visibleOffsetX else w.visibleOffsetX := by
  simp only [commonFinalWindow]
  split_ifs <;> simp [applyPreTitle, applyPostTitle, *]

@[simp] lemma commonFinalWindow_visibleOffsetY (f : FieldFlags) (ws : WindowStateOrder) (w : AppWindow) :
    (commonFinalWindow f ws w).visibleOffsetY = if f.fieldVisOffset then ws.visibleOffsetY else w.visibleOffsetY := by
  simp only [commonFinalWindow]
  split_ifs <;> simp [applyPreTitle, applyPostTitle, *]

@[simp] lemma commonFinalWindow_visibilityRects (f : FieldFlags) (ws : WindowStateOrder) (w : AppWindow) :
    (commonFinalWindow f ws w).visibilityRects = if f.fieldVisibility then ws.visibilityRects else w.visibilityRects := by
  simp only [commonFinalWindow]
  split_ifs <;> simp [applyPreTitle, applyPostTitle, *]

@[simp] lemma commonFinalWindow_is_mapped (f : FieldFlags) (ws : WindowStateOrder) (w : AppWindow) :
    (commonFinalWindow f ws w).is_mapped = w.is_mapped := by
  simp only [commonFinalWindow]
  split_ifs <;> simp [applyPreTitle, applyPostTitle, *]

@[simp] lemma commonFinalWindow_local_move (f : FieldFlags) (ws : WindowStateOrder) (w : AppWindow) :
    (commonFinalWindow f ws w).local_move = w.local_move := by
  simp only [commonFinalWindow]
  split_ifs <;> simp [applyPreTitle, applyPostTitle, *]

/-- Claim C1: RailIconCache_Lookup returns the scratch slot exactly for
the sentinel cache id 0xFF, for every cache shape including empty ones;
any other cache id misses exactly when it or the entry index is out of
bounds, and otherwise addresses the grid entry at
numCacheEntries * cacheId + cacheEntry, never falling back to scratch
and never clamping. -/
theorem C1_icon_cache_lookup (nc ne cacheId cacheEntry : Nat)
    (hId : cacheId < 256) (hEntry : cacheEntry < 65536) :
    (RailIconCache_Lookup ⟨nc, ne⟩ cacheId cacheEntry = some IconSlot.scratch ↔
      cacheId = 0xFF) ∧
    (cacheId ≠ 0xFF →
      ((RailIconCache_Lookup ⟨nc, ne⟩ cacheId cacheEntry = none ↔
         nc ≤ cacheId ∨ ne ≤ cacheEntry) ∧
       (cacheId < nc → cacheEntry < ne →
         RailIconCache_Lookup ⟨nc, ne⟩ cacheId cacheEntry =
           some (IconSlot.grid (ne * cacheId + cacheEntry))))) := by
  unfold RailIconCache_Lookup
  split_ifs with h1 h2 h3 <;> simp_all

/-- Witness for C1 at the concrete shape 3 x 4 with in-bounds
coordinates (1, 2), and at the sentinel on an empty 0 x 0 cache. -/
theorem C1_icon_cache_lookup_witness :
    (1 : Nat) < 256 ∧ (2 : Nat) < 65536 ∧ (255 : Nat) < 256 ∧
    RailIconCache_Lookup ⟨3, 4⟩ 1 2 = some (IconSlot.grid 6) ∧
    RailIconCache_Lookup ⟨0, 0⟩ 255 9 = some IconSlot.scratch := by
  refine ⟨by norm_num, by norm_num, by norm_num, ?_, ?_⟩
  · exact ((C1_icon_cache_lookup 3 4 1 2 (by norm_num) (by norm_num)).2
      (by norm_num)).2 (by norm_num) (by norm_num)
  · exact (C1_icon_cache_lookup 0 0 255 9 (by norm_num) (by norm_num)).1.mpr rfl

/-- Claim C9: the connection is aborted exactly for the six non-OK
exec result codes; RAIL_EXEC_S_OK instead enables remote app mode. -/
theorem C9_exec_result_abort_iff :
    (∀ r : RailExecResult,
      xf_rail_server_execute_result r = ExecResultAction.abortConnection ↔
        r ≠ RailExecResult.ok) ∧
    xf_rail_server_execute_result RailExecResult.ok =
      ExecResultAction.enableRemoteAppMode := by
  constructor
  · intro r
    cases r <;> simp [xf_rail_server_execute_result]
  · rfl

/-- Counterexample to C4 as stated: ending a local move leaves the
session state LMS_TERMINATING, not the idle state LMS_NOT_ACTIVE,
already on a concrete keyboard-move session. -/
theorem C4_counterexample :
    (xf_rail_end_local_move activeKeyMoveWindow 0 0).1.local_move.state ≠
      LocalMoveState.notActive := by
  decide

/-- Claim C4 (amended): xf_rail_end_local_move always leaves the
session in the Terminating state, for every direction variant
including the two keyboard directions; the final Terminating to Idle
step is performed later by the event handling outside this module. -/
theorem C4_end_local_move_terminating (w : AppWindow) (px py : Int) :
    (xf_rail_end_local_move w px py).1.local_move.state =
      LocalMoveState.terminating := rfl

/-- Counterexample to C5 as stated: there is no window state on which
the keyboard-path formula of xf_rail_end_local_move and the formula of
xf_rail_adjust_position disagree; the two expressions are congruent
modulo 65536, so the INT16 wrapped results coincide everywhere. -/
theorem C5_counterexample :
    ¬ ∃ w : AppWindow, endLocalMoveOrder w ≠ adjustPositionMoveOrder w := by
  intro h
  obtain ⟨w, hw⟩ := h
  exact hw (endLocalMoveOrder_eq_adjustPositionMoveOrder w)

/-- Claim C5 (amended): the two geometry-sync call sites are distinct
code paths but compute the same order fields on every window state:
adding the margin-adjusted width to the origin after wrapping equals
wrapping the full sum, since the INT16 cast preserves congruence
modulo 65536. -/
theorem C5_formulas_agree (w : AppWindow) :
    endLocalMoveOrder w = adjustPositionMoveOrder w :=
  endLocalMoveOrder_eq_adjustPositionMoveOrder w

/-- Counterexample to C8 as stated: on a concrete window that is not
mapped, with no move/resize session and with local geometry differing
from the RDP geometry, xf_rail_adjust_position sends nothing, although
the claim requires an emission whenever the session is idle and the
geometries differ. -/
theorem C8_counterexample :
    unmappedMovedWindow.local_move.state = LocalMoveState.notActive ∧
    unmappedMovedWindow.x ≠ unmappedMovedWindow.windowOffsetX ∧
    xf_rail_adjust_position unmappedMovedWindow = none := by
  refine ⟨rfl, by decide, ?_⟩
  simp [xf_rail_adjust_position, unmappedMovedWindow, zeroAppWindow]

/-- Claim C8 (amended): xf_rail_adjust_position is a no-op whenever a
move/resize session is Active or Terminating; otherwise, for a mapped
window, it emits a geometry-sync order exactly when the local geometry
differs from the RDP geometry, carrying left = x - marginLeft,
top = y - marginTop, right = x + width + marginRight and
bottom = y + height + marginBottom under INT16 wrapping; for an
unmapped window it is also a no-op. -/
theorem C8_adjust_position (w : AppWindow) :
    (w.local_move.state ≠ LocalMoveState.notActive →
      xf_rail_adjust_position w = none) ∧
    (w.is_mapped = false → xf_rail_adjust_position w = none) ∧
    (w.is_mapped = true → w.local_move.state = LocalMoveState.notActive →
      ((xf_rail_adjust_position w).isSome ↔
        (w.x ≠ w.windowOffsetX ∨ w.y ≠ w.windowOffsetY ∨
         w.width ≠ w.windowWidth ∨ w.height ≠ w.windowHeight)) ∧
      ((w.x ≠ w.windowOffsetX ∨ w.y ≠ w.windowOffsetY ∨
        w.width ≠ w.windowWidth ∨ w.height ≠ w.windowHeight) →
        xf_rail_adjust_position w = some
          { windowId := w.windowId
            left := int16wrap (w.x - int16wrap w.resizeMarginLeft)
            top := int16wrap (w.y - int16wrap w.resizeMarginTop)
            right := int16wrap (w.x + w.width + int16wrap w.resizeMarginRight)
            bottom := int16wrap (w.y + w.height + int16wrap w.resizeMarginBottom) })) := by
  unfold xf_rail_adjust_position adjustPositionMoveOrder
  refine ⟨?_, ?_, ?_⟩
  · intro h
    rw [if_pos (Or.inr h)]
  · intro h
    rw [if_pos (Or.inl h)]
  · intro hm hs
    rw [if_neg (by simp [hm, hs])]
    constructor
    · split_ifs with h <;> simp [h]
    · intro h
      rw [if_pos h]

/-- Witness for C8: on a window in an Active session nothing is sent,
and on a concrete mapped idle window with differing geometry the
margin-inclusive order is sent. -/
theorem C8_adjust_position_witness :
    xf_rail_adjust_position activeKeyMoveWindow = none ∧
    (mappedMovedWindow.is_mapped = true ∧
     mappedMovedWindow.local_move.state = LocalMoveState.notActive ∧
     mappedMovedWindow.x ≠ mappedMovedWindow.windowOffsetX) ∧
    xf_rail_adjust_position mappedMovedWindow = some
      { windowId := mappedMovedWindow.windowId
        left := int16wrap (mappedMovedWindow.x - int16wrap mappedMovedWindow.resizeMarginLeft)
        top := int16wrap (mappedMovedWindow.y - int16wrap mappedMovedWindow.resizeMarginTop)
        right := int16wrap (mappedMovedWindow.x + mappedMovedWindow.width +
          int16wrap mappedMovedWindow.resizeMarginRight)
        bottom := int16wrap (mappedMovedWindow.y + mappedMovedWindow.height +
          int16wrap mappedMovedWindow.resizeMarginBottom) } := by
  refine ⟨(C8_adjust_position activeKeyMoveWindow).1 (by decide),
          ⟨rfl, rfl, by decide⟩, ?_⟩
  exact ((C8_adjust_position mappedMovedWindow).2.2 rfl rfl).2 (Or.inl (by decide))

/-- Counterexample to C2 as stated: an order whose mask contains only
the new-window flag, applied to an existing window, overwrites the
style and title fields even though the STYLE and TITLE bits are absent
from the mask. -/
theorem C2_counterexample :
    newNoTitleFlags.fieldStyle = false ∧ newNoTitleFlags.fieldTitle = false ∧
    existingStyledWindow.dwStyle = 1 ∧ existingStyledWindow.title = some "abc" ∧
    (windowCommonCore newNoTitleFlags styleTwoOrder existingStyledWindow).2.1.dwStyle = 2 ∧
    (windowCommonCore newNoTitleFlags styleTwoOrder existingStyledWindow).2.1.title =
      some "RdpRailWindow" := by
  refine ⟨rfl, rfl, rfl, rfl, ?_, ?_⟩ <;> decide

/-- Claim C2 (amended): for an order applied to an existing window
whose field mask does not contain the new-window flag, every state
field whose bit is absent from the mask is unchanged after the order
is applied, on the success and on the failure paths alike. -/
theorem C2_masked_fields_unchanged (f : FieldFlags) (ws : WindowStateOrder)
    (w : AppWindow) (hNew : f.stateNew = false) :
    (f.fieldWndOffset = false →
      (windowCommonCore f ws w).2.1.windowOffsetX = w.windowOffsetX ∧
      (windowCommonCore f ws w).2.1.windowOffsetY = w.windowOffsetY) ∧
    (f.fieldWndSize = false →
      (windowCommonCore f ws w).2.1.windowWidth = w.windowWidth ∧
      (windowCommonCore f ws w).2.1.windowHeight = w.windowHeight) ∧
    (f.fieldResizeMarginX = false →
      (windowCommonCore f ws w).2.1.resizeMarginLeft = w.resizeMarginLeft ∧
      (windowCommonCore f ws w).2.1.resizeMarginRight = w.resizeMarginRight) ∧
    (f.fieldResizeMarginY = false →
      (windowCommonCore f ws w).2.1.resizeMarginTop = w.resizeMarginTop ∧
      (windowCommonCore f ws w).2.1.resizeMarginBottom = w.resizeMarginBottom) ∧
    (f.fieldOwner = false →
      (windowCommonCore f ws w).2.1.ownerWindowId = w.ownerWindowId) ∧
    (f.fieldStyle = false →
      (windowCommonCore f ws w).2.1.dwStyle = w.dwStyle ∧
      (windowCommonCore f ws w).2.1.dwExStyle = w.dwExStyle) ∧
    (f.fieldShow = false →
      (windowCommonCore f ws w).2.1.showState = w.showState) ∧
    (f.fieldTitle = false →
      (windowCommonCore f ws w).2.1.title = w.title) ∧
    (f.fieldClientAreaOffset = false →
      (windowCommonCore f ws w).2.1.clientOffsetX = w.clientOffsetX ∧
      (windowCommonCore f ws w).2.1.clientOffsetY = w.clientOffsetY) ∧
    (f.fieldClientAreaSize = false →
      (windowCommonCore f ws w).2.1.clientAreaWidth = w.clientAreaWidth ∧
      (windowCommonCore f ws w).2.1.clientAreaHeight = w.clientAreaHeight) ∧
    (f.fieldWndClientDelta = false →
      (windowCommonCore f ws w).2.1.windowClientDeltaX = w.windowClientDeltaX ∧
      (windowCommonCore f ws w).2.1.windowClientDeltaY = w.windowClientDeltaY) ∧
    (f.fieldWndRects = false →
      (windowCommonCore f ws w).2.1.windowRects = w.windowRects) ∧
    (f.fieldVisOffset = false →
      (windowCommonCore f ws w).2.1.visibleOffsetX = w.visibleOffsetX ∧
      (windowCommonCore f ws w).2.1.visibleOffsetY = w.visibleOffsetY) ∧
    (f.fieldVisibility = false →
      (windowCommonCore f ws w).2.1.visibilityRects = w.visibilityRects) := by
  have h1 : ¬(f.stateNew = true ∧ createTitle f ws = none) := by simp [hNew]
  by_cases h2 : f.fieldTitle = true ∧ updateTitle ws = none
  · refine ⟨?_, ?_, ?_, ?_, ?_, ?_, ?_, ?_, ?_, ?_, ?_, ?_, ?_, ?_⟩ <;>
      intro h <;>
      simp [windowCommonCore, h1, h2, applyPreTitle, hNew, h]
  · refine ⟨?_, ?_, ?_, ?_, ?_, ?_, ?_, ?_, ?_, ?_, ?_, ?_, ?_, ?_⟩ <;>
      intro h <;>
      simp [windowCommonCore, h1, h2, hNew, h]

/-- Witness for C2 at the all-clear mask on a concrete window: style
and title are unchanged by the application. -/
theorem C2_masked_fields_unchanged_witness :
    noFields.stateNew = false ∧ noFields.fieldStyle = false ∧
    noFields.fieldTitle = false ∧
    (windowCommonCore noFields zeroWindowStateOrder existingStyledWindow).2.1.dwStyle =
      existingStyledWindow.dwStyle ∧
    (windowCommonCore noFields zeroWindowStateOrder existingStyledWindow).2.1.title =
      existingStyledWindow.title := by
  refine ⟨rfl, rfl, rfl, ?_, ?_⟩
  · exact ((C2_masked_fields_unchanged noFields zeroWindowStateOrder
      existingStyledWindow rfl).2.2.2.2.2.1 rfl).1
  · exact (C2_masked_fields_unchanged noFields zeroWindowStateOrder
      existingStyledWindow rfl).2.2.2.2.2.2.2.1 rfl

/-- Claim C3: when the mirrored show state is minimized, a geometry
bearing order emits no move, redraw-area or visibility-rects effect,
yet the masked geometry fields are still written into the window
state.  rail_state mirrors showState through the show effect (the
assignment lives in xf_window.c and is modelled from the spec); the
sync hypothesis records that invariant for the incoming window. -/
theorem C3_minimized_suppresses_geometry (f : FieldFlags) (ws : WindowStateOrder)
    (w : AppWindow) (hSync : w.rail_state = w.showState)
    (hMin : (windowCommonCore f ws w).2.1.showState = WINDOW_SHOW_MINIMIZED) :
    (∀ e ∈ (windowCommonCore f ws w).2.2, e.isGeomEffect = false) ∧
    ((windowCommonCore f ws w).1 = true →
      ((windowCommonCore f ws w).2.1.windowOffsetX =
        (if f.fieldWndOffset then ws.windowOffsetX else w.windowOffsetX) ∧
       (windowCommonCore f ws w).2.1.windowOffsetY =
        (if f.fieldWndOffset then ws.windowOffsetY else w.windowOffsetY) ∧
       (windowCommonCore f ws w).2.1.windowWidth =
        (if f.fieldWndSize then ws.windowWidth else w.windowWidth) ∧
       (windowCommonCore f ws w).2.1.windowHeight =
        (if f.fieldWndSize then ws.windowHeight else w.windowHeight) ∧
       (windowCommonCore f ws w).2.1.clientOffsetX =
        (if f.fieldClientAreaOffset then ws.clientOffsetX else w.clientOffsetX) ∧
       (windowCommonCore f ws w).2.1.clientOffsetY =
        (if f.fieldClientAreaOffset then ws.clientOffsetY else w.clientOffsetY) ∧
       (windowCommonCore f ws w).2.1.clientAreaWidth =
        (if f.fieldClientAreaSize then ws.clientAreaWidth else w.clientAreaWidth) ∧
       (windowCommonCore f ws w).2.1.clientAreaHeight =
        (if f.fieldClientAreaSize then ws.clientAreaHeight else w.clientAreaHeight) ∧
       (windowCommonCore f ws w).2.1.windowClientDeltaX =
        (if f.fieldWndClientDelta then ws.windowClientDeltaX else w.windowClientDeltaX) ∧
       (windowCommonCore f ws w).2.1.windowClientDeltaY =
        (if f.fieldWndClientDelta then ws.windowClientDeltaY else w.windowClientDeltaY) ∧
       (windowCommonCore f ws w).2.1.visibleOffsetX =
        (if f.fieldVisOffset then ws.visibleOffsetX else w.visibleOffsetX) ∧
       (windowCommonCore f ws w).2.1.visibleOffsetY =
        (if f.fieldVisOffset then ws.visibleOffsetY else w.visibleOffsetY) ∧
       (windowCommonCore f ws w).2.1.visibilityRects =
        (if f.fieldVisibility then ws.visibilityRects else w.visibilityRects))) := by
  by_cases h1 : f.stateNew = true ∧ createTitle f ws = none
  · constructor
    · intro e he
      simp [windowCommonCore, h1] at he
    · intro hok
      simp [windowCommonCore, h1] at hok
  · by_cases h2 : f.fieldTitle = true ∧ updateTitle ws = none
    · constructor
      · intro e he
        simp [windowCommonCore, h1, h2] at he
        obtain ⟨-, he⟩ := he
        subst he
        rfl
      · intro hok
        simp [windowCommonCore, h1, h2] at hok
    · have hMin2 : (if f.fieldShow then ws.showState else w.showState) =
          WINDOW_SHOW_MINIMIZED := by
        simpa [windowCommonCore, h1, h2] using hMin
      have hrail : (if f.fieldShow then ws.showState else w.rail_state) =
          WINDOW_SHOW_MINIMIZED := by
        by_cases hs : f.fieldShow
        · simpa [hs] using hMin2
        · rw [if_neg hs] at hMin2 ⊢
          rw [hSync]
          exact hMin2
      constructor
      · intro e he
        simp [windowCommonCore, h1, h2, mem_emitEffects] at he
        rcases he with he | he | he | he | he
        · obtain ⟨-, he⟩ := he
          subst he
          rfl
        · obtain ⟨-, he⟩ := he
          subst he
          rfl
        · obtain ⟨-, he⟩ := he
          subst he
          rfl
        · obtain ⟨-, he⟩ := he
          simp [geomEffects, hrail, WINDOW_SHOW_MINIMIZED, WINDOW_SHOW_MAXIMIZED] at he
        · obtain ⟨-, he⟩ := he
          subst he
          rfl
      · intro hok
        simp [windowCommonCore, h1, h2]

/-- Witness for C3 on a concrete minimized window and an offset-only
order: no geometry effect appears, yet the offset field is updated. -/
theorem C3_minimized_suppresses_geometry_witness :
    minimizedWindow.rail_state = minimizedWindow.showState ∧
    (windowCommonCore geomOrderFlags offsetOrder minimizedWindow).2.1.showState =
      WINDOW_SHOW_MINIMIZED ∧
    (∀ e ∈ (windowCommonCore geomOrderFlags offsetOrder minimizedWindow).2.2,
      e.isGeomEffect = false) ∧
    (windowCommonCore geomOrderFlags offsetOrder minimizedWindow).2.1.windowOffsetX = 7 := by
  refine ⟨rfl, by decide, ?_, by decide⟩
  exact (C3_minimized_suppresses_geometry geomOrderFlags offsetOrder minimizedWindow
    rfl (by decide)).1

/-- Claim C6: on a Create order, a mask without the TITLE bit yields
the fixed placeholder title RdpRailWindow; the TITLE bit with a zero
length payload yields the empty title, with success; the two outcomes
are distinguishable; and a title decode failure makes the whole order
application return failure. -/
theorem C6_create_title_handling :
    (∀ (f : FieldFlags) (ws : WindowStateOrder) (w0 : AppWindow),
      f.stateNew = true → f.fieldTitle = false →
        (windowCommonCore f ws w0).1 = true ∧
        (windowCommonCore f ws w0).2.1.title = some "RdpRailWindow") ∧
    (∀ (f : FieldFlags) (ws : WindowStateOrder) (w0 : AppWindow),
      f.stateNew = true → f.fieldTitle = true → ws.titleLength = 0 →
        (windowCommonCore f ws w0).1 = true ∧
        (windowCommonCore f ws w0).2.1.title = some "") ∧
    (∀ (f : FieldFlags) (ws : WindowStateOrder) (w0 : AppWindow),
      f.stateNew = true → f.fieldTitle = true → ws.titleLength ≠ 0 →
      ws.titleDecode = none →
        (windowCommonCore f ws w0).1 = false) ∧
    (some "RdpRailWindow" : Option String) ≠ some "" := by
  refine ⟨?_, ?_, ?_, by decide⟩
  · intro f ws w0 hN hT
    have hc : createTitle f ws = some "RdpRailWindow" := by simp [createTitle, hT]
    have h1 : ¬(f.stateNew = true ∧ createTitle f ws = none) := by simp [hc]
    have h2 : ¬(f.fieldTitle = true ∧ updateTitle ws = none) := by simp [hT]
    constructor
    · simp [windowCommonCore, h1, h2]
    · simp [windowCommonCore, h1, h2, hT, hN, hc]
  · intro f ws w0 hN hT hL
    have hc : createTitle f ws = some "" := by simp [createTitle, hT, hL]
    have hu : updateTitle ws = some "" := by simp [updateTitle, hL]
    have h1 : ¬(f.stateNew = true ∧ createTitle f ws = none) := by simp [hc]
    have h2 : ¬(f.fieldTitle = true ∧ updateTitle ws = none) := by simp [hu]
    constructor
    · simp [windowCommonCore, h1, h2]
    · simp [windowCommonCore, h1, h2, hT, hu]
  · intro f ws w0 hN hT hL hD
    have hc : createTitle f ws = none := by simp [createTitle, hT, hL, hD]
    simp [windowCommonCore, hN, hc]

/-- Witness for C6 at concrete orders: a Create without TITLE yields
the placeholder, a Create with an empty TITLE payload yields the empty
string, and a Create whose title fails to decode returns failure. -/
theorem C6_create_title_handling_witness :
    (newNoTitleFlags.stateNew = true ∧ newNoTitleFlags.fieldTitle = false ∧
      (windowCommonCore newNoTitleFlags zeroWindowStateOrder zeroAppWindow).2.1.title =
        some "RdpRailWindow") ∧
    (newTitleFlags.fieldTitle = true ∧ zeroWindowStateOrder.titleLength = 0 ∧
      (windowCommonCore newTitleFlags zeroWindowStateOrder zeroAppWindow).2.1.title =
        some "") ∧
    (failDecodeOrder.titleLength ≠ 0 ∧ failDecodeOrder.titleDecode = none ∧
      (windowCommonCore newTitleFlags failDecodeOrder zeroAppWindow).1 = false) := by
  refine ⟨⟨rfl, rfl, ?_⟩, ⟨rfl, rfl, ?_⟩, ⟨by decide, rfl, ?_⟩⟩
  · exact (C6_create_title_handling.1 newNoTitleFlags zeroWindowStateOrder
      zeroAppWindow rfl rfl).2
  · exact (C6_create_title_handling.2.1 newTitleFlags zeroWindowStateOrder
      zeroAppWindow rfl rfl rfl).2
  · exact C6_create_title_handling.2.2.1 newTitleFlags failDecodeOrder
      zeroAppWindow rfl rfl (by decide) rfl

/-- Claim C7: for a geometry-bearing order successfully applied to a
window whose resulting show state is not minimized, the effect list
contains a full-area redraw when the local geometry already equals the
RDP geometry and a move otherwise - never both - and always contains
the visibility-rects effect with offsets
visibleOffset - (clientOffset - windowClientDelta). -/
theorem C7_nonminimized_geometry_effects (f : FieldFlags) (ws : WindowStateOrder)
    (w wr : AppWindow) (effs : List Effect)
    (hres : windowCommonCore f ws w = (true, wr, effs))
    (hGeom : positionOrSizeUpdated f = true)
    (hNotMin : wr.rail_state ≠ WINDOW_SHOW_MINIMIZED) :
    ((wr.x = wr.windowOffsetX ∧ wr.y = wr.windowOffsetY ∧
      wr.width = wr.windowWidth ∧ wr.height = wr.windowHeight) →
      Effect.updateWindowArea 0 0 wr.windowWidth wr.windowHeight ∈ effs ∧
      (∀ a b c d, Effect.moveWindow a b c d ∉ effs)) ∧
    (¬(wr.x = wr.windowOffsetX ∧ wr.y = wr.windowOffsetY ∧
       wr.width = wr.windowWidth ∧ wr.height = wr.windowHeight) →
      Effect.moveWindow wr.windowOffsetX wr.windowOffsetY
        wr.windowWidth wr.windowHeight ∈ effs ∧
      (∀ a b c d, Effect.updateWindowArea a b c d ∉ effs)) ∧
    Effect.setVisibilityRects
      (wr.visibleOffsetX - (wr.clientOffsetX - wr.windowClientDeltaX))
      (wr.visibleOffsetY - (wr.clientOffsetY - wr.windowClientDeltaY))
      wr.visibilityRects ∈ effs := by
  have h1 : ¬(f.stateNew ∧ (createTitle f ws).isNone) := by
    intro hc
    unfold windowCommonCore at hres
    rw [if_pos hc] at hres
    simp at hres
  have h2 : ¬(f.fieldTitle ∧ (updateTitle ws).isNone) := by
    intro hc
    unfold windowCommonCore at hres
    rw [if_neg h1, if_pos hc] at hres
    simp at hres
  have hres2 : commonFinalWindow f ws w = wr ∧
      initEffects f ++ emitEffects f (commonFinalWindow f ws w) = effs := by
    unfold windowCommonCore at hres
    rw [if_neg h1, if_neg h2] at hres
    exact ⟨congrArg (fun p => p.2.1) hres, congrArg (fun p => p.2.2) hres⟩
  obtain ⟨hw, he⟩ := hres2
  rw [hw] at he
  subst he
  refine ⟨?_, ?_, ?_⟩
  · intro hcond
    constructor
    · rw [List.mem_append]
      refine Or.inr ?_
      rw [mem_emitEffects]
      refine Or.inr (Or.inr (Or.inl ⟨hGeom, ?_⟩))
      rw [mem_geomEffects wr _ hNotMin]
      exact Or.inl ⟨hcond, rfl⟩
    · intro a b c d hmem
      rw [List.mem_append] at hmem
      rcases hmem with hmem | hmem
      · rw [mem_initEffects] at hmem
        exact Effect.noConfusion hmem.2
      · rw [mem_emitEffects] at hmem
        rcases hmem with ⟨-, hh⟩ | ⟨-, hh⟩ | ⟨-, hh⟩ | ⟨-, hh⟩
        · exact Effect.noConfusion hh
        · exact Effect.noConfusion hh
        · rw [mem_geomEffects wr _ hNotMin] at hh
          rcases hh with ⟨-, hh⟩ | ⟨hnc, hh⟩ | hh | ⟨-, hh⟩
          · exact Effect.noConfusion hh
          · exact hnc hcond
          · exact Effect.noConfusion hh
          · exact Effect.noConfusion hh
        · exact Effect.noConfusion hh
  · intro hncond
    constructor
    · rw [List.mem_append]
      refine Or.inr ?_
      rw [mem_emitEffects]
      refine Or.inr (Or.inr (Or.inl ⟨hGeom, ?_⟩))
      rw [mem_geomEffects wr _ hNotMin]
      exact Or.inr (Or.inl ⟨hncond, rfl⟩)
    · intro a b c d hmem
      rw [List.mem_append] at hmem
      rcases hmem with hmem | hmem
      · rw [mem_initEffects] at hmem
        exact Effect.noConfusion hmem.2
      · rw [mem_emitEffects] at hmem
        rcases hmem with ⟨-, hh⟩ | ⟨-, hh⟩ | ⟨-, hh⟩ | ⟨-, hh⟩
        · exact Effect.noConfusion hh
        · exact Effect.noConfusion hh
        · rw [mem_geomEffects wr _ hNotMin] at hh
          rcases hh with ⟨hc, hh⟩ | ⟨-, hh⟩ | hh | ⟨-, hh⟩
          · exact hncond hc
          · exact Effect.noConfusion hh
          · exact Effect.noConfusion hh
          · exact Effect.noConfusion hh
        · exact Effect.noConfusion hh
  · rw [List.mem_append]
    refine Or.inr ?_
    rw [mem_emitEffects]
    refine Or.inr (Or.inr (Or.inl ⟨hGeom, ?_⟩))
    rw [mem_geomEffects wr _ hNotMin]
    exact Or.inr (Or.inr (Or.inl rfl))

/-- Witness for C7: on a concrete zero window an offset-seven order
produces a move effect, and on a window already at x = 7 the same
order produces a full-area redraw effect. -/
theorem C7_nonminimized_geometry_effects_witness :
    positionOrSizeUpdated geomOrderFlags = true ∧
    Effect.moveWindow 7 0 0 0 ∈
      (windowCommonCore geomOrderFlags offsetOrder zeroAppWindow).2.2 ∧
    Effect.updateWindowArea 0 0 0 0 ∈
      (windowCommonCore geomOrderFlags offsetOrder matchingWindow).2.2 := by
  refine ⟨rfl, ?_, ?_⟩
  · have h := C7_nonminimized_geometry_effects geomOrderFlags offsetOrder
      zeroAppWindow
      (windowCommonCore geomOrderFlags offsetOrder zeroAppWindow).2.1
      (windowCommonCore geomOrderFlags offsetOrder zeroAppWindow).2.2
      rfl rfl (by decide)
    exact (h.2.1 (by decide)).1
  · have h := C7_nonminimized_geometry_effects geomOrderFlags offsetOrder
      matchingWindow
      (windowCommonCore geomOrderFlags offsetOrder matchingWindow).2.1
      (windowCommonCore geomOrderFlags offsetOrder matchingWindow).2.2
      rfl rfl (by decide)
    exact (h.1 (by decide)).1

/-- Claim C10: a Create order for an absent windowId that fails during
title handling returns failure, yet the registry still contains the
entry inserted by xf_rail_add_window - the error path does not remove
it, so the registry is not restored to its pre-order state. -/
theorem C10_failed_create_keeps_registry_entry
    (reg : RailWindowRegistry) (id : Nat) (f : FieldFlags) (ws : WindowStateOrder)
    (hAbsent : regGet reg id = none) (hNew : f.stateNew = true)
    (hTitle : f.fieldTitle = true) (hLen : ws.titleLength ≠ 0)
    (hDecode : ws.titleDecode = none) :
    (xf_rail_window_common reg ⟨id, f⟩ ws).1 = false ∧
    ∃ w, regGet (xf_rail_window_common reg ⟨id, f⟩ ws).2.1 id = some w := by
  have hc : createTitle f ws = none := by simp [createTitle, hTitle, hLen, hDecode]
  simp only [xf_rail_window_common, hAbsent]
  simp [hNew, windowCommonCore, hc, xf_rail_add_window, regGet_regInsert_self]

/-- Witness for C10: a failing Create on the empty registry for window
id 3 returns failure and leaves an entry for id 3 behind. -/
theorem C10_failed_create_keeps_registry_entry_witness :
    regGet ([] : RailWindowRegistry) 3 = none ∧
    (xf_rail_window_common [] ⟨3, newTitleFlags⟩ failDecodeOrder).1 = false ∧
    ∃ w, regGet (xf_rail_window_common [] ⟨3, newTitleFlags⟩ failDecodeOrder).2.1 3 =
      some w := by
  refine ⟨rfl, ?_⟩
  exact C10_failed_create_keeps_registry_entry [] 3 newTitleFlags failDecodeOrder
    rfl rfl rfl (by decide) rfl

end XfRail
